import Mathlib

/-!
Shallow embedding of the finance-analyzer ingestion pipeline
(`lambda_function.py`, `app.py`, `pdf_processor_wip.py`) and proofs about
its spec claims.  Python strings are modelled as Lean `String`, Python
floats on decimal literals as `ℚ`, Python `dict` rows as association
lists, and the S3/RDS side effects as explicit state passing with an
environment of external-call outcomes.
-/

/-- Characters Python `str.strip()` removes (ASCII whitespace subset). -/
def isPySpace (c : Char) : Bool :=
  c == ' ' || c == '\t' || c == '\n' || c == '\r' || c == '\x0b' || c == '\x0c'

/-- Models Python `s.strip()`. -/
def pyStrip (s : String) : String :=
  ⟨((s.data.dropWhile isPySpace).reverse.dropWhile isPySpace).reverse⟩

/-- Models Python `s.replace(",", "")` (all commas removed). -/
def stripCommas (s : String) : String :=
  ⟨s.data.filter (fun c => c ≠ ',')⟩

/-- Numeric value of a digit character. -/
def digitVal (c : Char) : Nat := c.toNat - '0'.toNat

/-- Numeric value of a digit string. -/
def digitsVal (cs : List Char) : Nat := cs.foldl (fun a c => 10 * a + digitVal c) 0

/-- Sign, decimal mantissa and scale of a Python decimal literal:
optional surrounding whitespace, optional sign, digits with at most one
decimal point and at least one digit.  `none` where Python `float`
raises `ValueError` on such literals (exotic forms like exponents,
`inf`, `nan`, or underscores do not occur in this repository's data
paths). -/
def pyFloatParts (s : String) : Option (Bool × Nat × Nat) :=
  let cs := (pyStrip s).data
  let sgn : Bool × List Char :=
    match cs with
    | '-' :: t => (true, t)
    | '+' :: t => (false, t)
    | _ => (false, cs)
  let ip := sgn.2.takeWhile Char.isDigit
  let rest := sgn.2.dropWhile Char.isDigit
  match rest with
  | [] => if ip.isEmpty then none else some (sgn.1, digitsVal ip, 0)
  | '.' :: fp =>
      if fp.all Char.isDigit && (!ip.isEmpty || !fp.isEmpty) then
        some (sgn.1, digitsVal (ip ++ fp), fp.length)
      else none
  | _ => none

/-- Models Python `float(s)` on finite decimal literals, as the signed
rational value mantissa over ten to the scale. -/
def pyFloat (s : String) : Option ℚ :=
  (pyFloatParts s).map
    (fun p => (if p.1 then (-1 : ℚ) else 1) * (p.2.1 : ℚ) / (10 : ℚ) ^ p.2.2)

/-- Calendar date as produced by `datetime.strptime(...).date()`. -/
structure PyDate where
  year : Nat
  month : Nat
  day : Nat
deriving DecidableEq, Repr

/-- Gregorian leap-year rule used by Python `datetime`. -/
def isLeapYear (y : Nat) : Bool :=
  y % 4 == 0 && (y % 100 != 0 || y % 400 == 0)

/-- Number of days in a month, as validated by `datetime.date`. -/
def daysInMonth (y m : Nat) : Nat :=
  if m == 2 then (if isLeapYear y then 29 else 28)
  else if m == 4 || m == 6 || m == 9 || m == 11 then 30
  else 31

/-- Models `validate_date` (lambda_function.py lines 99-104):
`datetime.strptime(date_str, "%Y-%m-%d").date()` with `ValueError`
mapped to `none`.  `%Y` matches exactly four digits, `%m` and `%d` one
or two digits, the whole string must be consumed, and the resulting
(year, month, day) must be a real calendar date. -/
def validate_date (s : String) : Option PyDate :=
  let cs := s.data
  let yd := cs.takeWhile Char.isDigit
  match cs.dropWhile Char.isDigit with
  | '-' :: r2 =>
    let md := r2.takeWhile Char.isDigit
    match r2.dropWhile Char.isDigit with
    | '-' :: r4 =>
      let dd := r4.takeWhile Char.isDigit
      if (r4.dropWhile Char.isDigit).isEmpty
          && yd.length == 4 && (md.length == 1 || md.length == 2)
          && (dd.length == 1 || dd.length == 2) then
        let y := digitsVal yd
        let m := digitsVal md
        let d := digitsVal dd
        if 1 ≤ y && 1 ≤ m && m ≤ 12 && 1 ≤ d && d ≤ daysInMonth y m then
          some ⟨y, m, d⟩
        else none
      else none
    | _ => none
  | _ => none

/-- Parser for the locale format `%m/%d/%Y`, with the same `strptime`
field conventions as `validate_date`. -/
def parseUSDate (s : String) : Option PyDate :=
  let cs := s.data
  let md := cs.takeWhile Char.isDigit
  match cs.dropWhile Char.isDigit with
  | '/' :: r2 =>
    let dd := r2.takeWhile Char.isDigit
    match r2.dropWhile Char.isDigit with
    | '/' :: r4 =>
      let yd := r4.takeWhile Char.isDigit
      if (r4.dropWhile Char.isDigit).isEmpty
          && yd.length == 4 && (md.length == 1 || md.length == 2)
          && (dd.length == 1 || dd.length == 2) then
        let y := digitsVal yd
        let m := digitsVal md
        let d := digitsVal dd
        if 1 ≤ y && 1 ≤ m && m ≤ 12 && 1 ≤ d && d ≤ daysInMonth y m then
          some ⟨y, m, d⟩
        else none
      else none
    | _ => none
  | _ => none

/-- Modelled from the spec: date parsing is claimed to "try ISO
(`YYYY-MM-DD`) first, then locale `MM/DD/YYYY`; first successful parse
wins".  The repository's `validate_date` tries only the ISO format;
this definition follows the spec wording for comparison. -/
def validate_date_spec (s : String) : Option PyDate :=
  match validate_date s with
  | some d => some d
  | none => parseUSDate s

/-- Models `validate_amount` (lambda_function.py lines 106-111):
`float(amount_str)` with `ValueError`/`TypeError` (the `None` argument
case) mapped to the default `0.0`. -/
def validate_amount (a : Option String) : ℚ :=
  match a with
  | none => 0
  | some s => (pyFloat s).getD 0

/-- A raw CSV row as produced by `csv.DictReader`: an association list
from column name to string value. -/
abbrev RawRow := List (String × String)

/-- Models Python `row.get(k)`: `none` when the column is absent. -/
def rowGet (r : RawRow) (k : String) : Option String :=
  (r.find? (fun p => p.1 == k)).map (fun p => p.2)

/-- Models Python `a or b` on optional strings: `b` when `a` is falsy
(`None` or the empty string). -/
def pyOr (a b : Option String) : Option String :=
  match a with
  | some s => if s == "" then b else some s
  | none => b

/-- Models Python `a or d` where the fallback is a plain string. -/
def pyOrD (a : Option String) (d : String) : String :=
  match a with
  | some s => if s == "" then d else s
  | none => d

/-- Python truthiness of an optional string. -/
def truthy (a : Option String) : Bool :=
  match a with
  | some s => s != ""
  | none => false

/-- One output row of the processed CSV written by `process_csv_file`;
the amount is kept as the parsed numeric value (the code writes it back
with two decimal places). -/
structure OutRow where
  date : String
  description : String
  amount : ℚ
  category : String
deriving DecidableEq, Repr

/-- Models the amount normalization of `process_csv_file`
(lambda_function.py lines 74-84): a truthy debit column whose stripped
value is non-empty yields the negated parsed value, otherwise a truthy
credit column yields the positive parsed value, otherwise the row is
skipped (`none`); a `float` parse failure also skips the row. -/
def normalizeAmount (debit credit : Option String) : Option ℚ :=
  if truthy debit && (pyStrip (debit.getD "") != "") then
    (pyFloat (stripCommas (debit.getD ""))).map (fun v => -v)
  else if truthy credit && (pyStrip (credit.getD "") != "") then
    pyFloat (stripCommas (credit.getD ""))
  else none

/-- Models the per-row body of `process_csv_file` (lambda_function.py
lines 63-92): column aliasing via `or`, the date-presence check, and
amount normalization; `none` means the row was skipped. -/
def processRow (row : RawRow) : Option OutRow :=
  let date := pyOr (rowGet row "Date") (rowGet row "date")
  let desc := pyOrD (rowGet row "Description") ((rowGet row "description").getD "")
  let debit := pyOr (rowGet row "Debit (-)") (rowGet row "Debit")
  let credit := pyOr (rowGet row "Credit (+)") (rowGet row "Credit")
  let category := pyOrD (rowGet row "Category") ((rowGet row "category").getD "")
  if truthy date then
    match normalizeAmount debit credit with
    | some amt => some ⟨date.getD "", desc, amt, category⟩
    | none => none
  else none

/-- Models `process_csv_file` (lambda_function.py lines 53-97): the
rows written to the processed file, in source order; the returned
`rows_processed` count is the length of this list. -/
def processCsv (rows : List RawRow) : List OutRow :=
  rows.filterMap processRow

/-- A transaction as staged for the database insert (lambda_function.py
lines 276-284). -/
structure Txn where
  date : PyDate
  description : String
  amount : ℚ
  category : String
deriving DecidableEq, Repr

/-- The date field of a row in the insert stage: lambda_function.py
line 278. -/
def rowDateField (r : RawRow) : Option String :=
  pyOr (rowGet r "date") (rowGet r "transaction_date")

/-- The amount field of a row in the insert stage: lambda_function.py
line 280. -/
def rowAmtField (r : RawRow) : Option String :=
  pyOr (rowGet r "amount") (rowGet r "transaction_amount")

/-- The tuple appended to the insert batch for a row with a valid date
(lambda_function.py lines 279-284). -/
def mkTxn (r : RawRow) (d : PyDate) : Txn :=
  ⟨d, pyStrip ((rowGet r "description").getD ""), validate_amount (rowAmtField r),
    pyStrip ((rowGet r "category").getD "")⟩

/-- Models the batch-building loop of the insert stage
(lambda_function.py lines 276-284): rows with a valid date are staged
in order; a missing date field makes `strptime` raise an uncaught
`TypeError` (only `ValueError` is caught by `validate_date`). -/
def buildBatch : List RawRow → Except String (List Txn)
  | [] => Except.ok []
  | r :: rest =>
    match rowDateField r with
    | none => Except.error "TypeError"
    | some ds =>
      match buildBatch rest with
      | Except.error e => Except.error e
      | Except.ok batch =>
        match validate_date ds with
        | some d => Except.ok (mkTxn r d :: batch)
        | none => Except.ok batch

/-- The source bucket name (lambda_function.py line 20). -/
def SOURCE_BUCKET : String := "first-bucket-raw"

/-- The destination bucket name (lambda_function.py line 21). -/
def DEST_BUCKET : String := "processed-data-finance-analyzer"

/-- Models `os.path.basename`: the part of the key after the last
slash. -/
def baseName (s : String) : String :=
  ⟨(s.data.reverse.takeWhile (fun c => c ≠ '/')).reverse⟩

/-- The key `archive_file` actually writes to (lambda_function.py
lines 134-135): `archive/` followed by the basename of the original
key. -/
def archiveKeyOf (key : String) : String :=
  "archive/" ++ baseName key

/-- The `archived_path` value `lambda_handler` reports on success
(lambda_function.py line 214): `archive/` followed by the full original
key. -/
def reportedArchivePath (key : String) : String :=
  "archive/" ++ key

/-- The S3 state visible to the pipeline: the source bucket (raw CSV
files, including the `archive/` namespace) and the destination bucket
(processed files).  Buckets are association lists from key to
content. -/
structure S3State where
  src : List (String × List RawRow)
  dest : List (String × List OutRow)
deriving DecidableEq, Repr

/-- Bucket lookup. -/
def lookupObj {α : Type} (b : List (String × α)) (k : String) : Option α :=
  (b.find? (fun p => p.1 == k)).map (fun p => p.2)

/-- Bucket put (S3 puts overwrite any existing object). -/
def putObj {α : Type} (b : List (String × α)) (k : String) (v : α) : List (String × α) :=
  (k, v) :: b.filter (fun p => p.1 != k)

/-- Bucket delete. -/
def delObj {α : Type} (b : List (String × α)) (k : String) : List (String × α) :=
  b.filter (fun p => p.1 != k)

/-- Outcomes of the external calls a single `lambda_handler` run makes,
supplied as an oracle so every failure pattern can be analyzed. -/
structure Env where
  s3AccessOk : Bool
  eventOk : Bool
  downloadOk : Bool
  uploadOk : Bool
  copyOk : Bool
  deleteOk : Bool
deriving DecidableEq, Repr

/-- Models `archive_file` (lambda_function.py lines 130-149): copy the
object to `archive/<basename>` in the same bucket, then delete the
original.  Returns a success flag together with the resulting state; a
failed delete leaves the archive copy in place (the copy already
happened remotely). -/
def archive_file (env : Env) (s3 : S3State) (key : String) : Bool × S3State :=
  match lookupObj s3.src key with
  | none => (false, s3)
  | some content =>
    if env.copyOk then
      let s3c : S3State := { s3 with src := putObj s3.src (archiveKeyOf key) content }
      if env.deleteOk then (true, { s3c with src := delObj s3c.src key })
      else (false, s3c)
    else (false, s3)

/-- Result of one `lambda_handler` run (statusCode plus the success
body fields of lambda_function.py lines 207-216). -/
structure HandlerResult where
  statusCode : Nat
  rowsProcessed : Option Nat
  archivedPath : Option String
deriving DecidableEq, Repr

/-- The error result every `except` path returns (lambda_function.py
lines 218-227). -/
def err500 : HandlerResult := ⟨500, none, none⟩

/-- Models the reachable path of `lambda_handler` (lambda_function.py
lines 151-227; the code after the first `return` pair is unreachable):
check S3 access, validate the event, check the source bucket, download
the object, process it, fail if zero rows were processed, upload the
processed file to the destination bucket, then archive the original.
Every exception is caught and turned into a 500 result. -/
def lambda_handler (env : Env) (s3 : S3State) (srcBucket key : String) :
    HandlerResult × S3State :=
  if !env.s3AccessOk then (err500, s3)
  else if !env.eventOk then (err500, s3)
  else if srcBucket != SOURCE_BUCKET then (err500, s3)
  else
    match lookupObj s3.src key with
    | none => (err500, s3)
    | some rows =>
      if !env.downloadOk then (err500, s3)
      else
        let processed := processCsv rows
        if processed.length == 0 then (err500, s3)
        else if !env.uploadOk then (err500, s3)
        else
          let s3u : S3State := { s3 with dest := putObj s3.dest key processed }
          let ar := archive_file env s3u key
          if ar.1 then (⟨200, some processed.length, some (reportedArchivePath key)⟩, ar.2)
          else (err500, ar.2)

/-- All conditions up to and including the destination upload
succeeding, i.e. persistence of the batch is confirmed. -/
def persisted (env : Env) (s3 : S3State) (srcBucket key : String) : Bool :=
  env.s3AccessOk && env.eventOk && (srcBucket == SOURCE_BUCKET)
    && (lookupObj s3.src key).isSome && env.downloadOk
    && !((processCsv ((lookupObj s3.src key).getD [])).length == 0)
    && env.uploadOk

/-- A transaction row as the dashboard analysis sees it (app.py):
a date and a signed amount. -/
structure ATxn where
  date : PyDate
  amount : ℚ
deriving DecidableEq, Repr

/-- Models `total_income` (app.py line 230): the sum of the
positive-amount transactions. -/
def total_income (df : List ATxn) : ℚ :=
  ((df.filter (fun t => 0 < t.amount)).map (fun t => t.amount)).sum

/-- Models `total_expenses` (app.py line 235): the absolute value of
the sum of the negative-amount transactions. -/
def total_expenses (df : List ATxn) : ℚ :=
  |((df.filter (fun t => t.amount < 0)).map (fun t => t.amount)).sum|

/-- Models `net_savings` (app.py line 240). -/
def net_savings (df : List ATxn) : ℚ :=
  total_income df - total_expenses df

/-- Models `months_count` (app.py line 251): the number of distinct
(year, month) periods among the transactions. -/
def months_count (df : List ATxn) : Nat :=
  ((df.map (fun t => (t.date.year, t.date.month))).dedup).length

/-- Value of the division in the goal-progress computation:
`current_savings` is a numpy float64 (pandas sums), so division by a
zero goal follows IEEE semantics — positive infinity, negative
infinity, or nan for 0/0 — with a RuntimeWarning, not an exception;
finite quotients are exact rationals here. -/
inductive FloatVal where
  | fin (q : ℚ)
  | posInf
  | negInf
  | nan
deriving DecidableEq, Repr

/-- Models numpy float64 division `a / b`. -/
def pyDiv (a b : ℚ) : FloatVal :=
  if b = 0 then
    (if 0 < a then FloatVal.posInf else if a < 0 then FloatVal.negInf else FloatVal.nan)
  else FloatVal.fin (a / b)

/-- Models Python `min(a, x)`: returns `x` when `x < a`, else `a`; a
nan comparison is false, so `min(a, nan) = a`. -/
def pyMin (a : ℚ) (x : FloatVal) : FloatVal :=
  match x with
  | FloatVal.fin q => FloatVal.fin (if q < a then q else a)
  | FloatVal.posInf => FloatVal.fin a
  | FloatVal.negInf => FloatVal.negInf
  | FloatVal.nan => FloatVal.fin a

/-- Models Python `max(a, x)`: returns `x` when `a < x`, else `a`; a
nan comparison is false, so `max(a, nan) = a`. -/
def pyMax (a : ℚ) (x : FloatVal) : FloatVal :=
  match x with
  | FloatVal.fin q => FloatVal.fin (if a < q then q else a)
  | FloatVal.posInf => FloatVal.posInf
  | FloatVal.negInf => FloatVal.fin a
  | FloatVal.nan => FloatVal.fin a

/-- Models the goal-progress computation (app.py line 420):
`max(0.0, min(1.0, current_savings / goal))` under numpy float64
division semantics. -/
def progressCalc (net goal : ℚ) : FloatVal :=
  pyMax 0 (pyMin 1 (pyDiv net goal))

/-- The clamp the spec describes: `clamp(x, 0.0, 1.0)`. -/
def clampSpec (x : ℚ) : ℚ :=
  if x < 0 then 0 else if 1 < x then 1 else x

/-- Substring-at-head test on character lists. -/
def leadsWith : List Char → List Char → Bool
  | [], _ => true
  | _ :: _, [] => false
  | p :: ps, c :: cs => p == c && leadsWith ps cs

/-- Substring containment on character lists, as Python `needle in
hay`. -/
def hasSub (needle : List Char) : List Char → Bool
  | [] => needle.isEmpty
  | c :: t => leadsWith needle (c :: t) || hasSub needle t

/-- Models Python `needle in hay` on strings. -/
def strContains (hay needle : String) : Bool :=
  hasSub needle.data hay.data

/-- Models Python `s.lower()` (ASCII). -/
def strToLower (s : String) : String :=
  ⟨s.data.map Char.toLower⟩

/-- The ordered category keyword table of
`BankStatementProcessor.__init__` (pdf_processor_wip.py lines 19-28);
Python dicts preserve insertion order, so iteration order is exactly
this list order. -/
def categories : List (String × List String) :=
  [("Food & Dining", ["restaurant", "food", "grocery", "cafe", "coffee", "doordash", "uber eats"]),
   ("Transportation", ["gas", "uber", "lyft", "transit", "parking", "transport"]),
   ("Shopping", ["amazon", "target", "walmart", "store", "shop"]),
   ("Entertainment", ["netflix", "spotify", "movie", "entertainment"]),
   ("Utilities", ["electric", "water", "gas", "internet", "phone", "utility"]),
   ("Housing", ["rent", "mortgage", "home", "apartment", "housing"]),
   ("Healthcare", ["medical", "doctor", "pharmacy", "health"]),
   ("Income", ["salary", "deposit", "payroll", "direct dep", "interest"])]

/-- Whether a category rule matches a (lower-cased) description: any of
its keywords is a substring. -/
def kwMatch (d : String) (p : String × List String) : Bool :=
  p.2.any (fun k => strContains d k)

/-- Models `BankStatementProcessor._categorize_transaction`
(pdf_processor_wip.py lines 94-102): lower-case the description, return
the first category in table order with a matching keyword, else the
sentinel category. -/
def categorize_transaction (description : String) : String :=
  match categories.find? (kwMatch (strToLower description)) with
  | some p => p.1
  | none => "Other"

/-- Example raw row: a debit of 40.00 on 2024-01-05. -/
def exRow : RawRow :=
  [("Date", "2024-01-05"), ("Description", "Shell Gas Station"),
   ("Debit (-)", "40.00"), ("Credit (+)", ""), ("Category", "")]

/-- Example initial S3 state: one raw statement in the source bucket. -/
def exS3 : S3State := ⟨[("stmt.csv", [exRow])], []⟩

/-- Environment in which every external call succeeds. -/
def envOk : Env := ⟨true, true, true, true, true, true⟩

/-- Environment in which the destination upload fails. -/
def envNoUpload : Env := ⟨true, true, true, false, true, true⟩

/-- Helper: looking up the key just put returns the value put. -/
theorem lookup_put {α : Type} (b : List (String × α)) (k : String) (v : α) :
    lookupObj (putObj b k v) k = some v := by
  simp [lookupObj, putObj, List.find?]

/-- Helper: `archive_file` never touches the destination bucket. -/
theorem archive_file_dest (env : Env) (s3 : S3State) (key : String) :
    (archive_file env s3 key).2.dest = s3.dest := by
  unfold archive_file
  cases lookupObj s3.src key <;> cases env.copyOk <;> cases env.deleteOk <;> simp

/-- Helper: `find?` returns the element at the first index whose
predicate holds when all earlier elements fail it. -/
theorem find?_first {α : Type} (p : α → Bool) (l : List α) :
    ∀ (i : Nat) (hi : i < l.length),
      p (l.get ⟨i, hi⟩) = true →
      (l.take i).all (fun a => !p a) = true →
      l.find? p = some (l.get ⟨i, hi⟩) := by
  induction l with
  | nil => intro i hi; simp at hi
  | cons a t ih =>
    intro i hi hp hall
    cases i with
    | zero =>
      have hpa : p a = true := hp
      simp [List.find?_cons, hpa]
    | succ j =>
      have hna : p a = false := by
        simp [List.take_succ_cons, List.all_cons] at hall
        simpa using hall.1
      have htl : (t.take j).all (fun a => !p a) = true := by
        simp [List.take_succ_cons, List.all_cons] at hall
        exact List.all_eq_true.mpr (fun x hx => by
          simpa using hall.2 x hx)
      rw [List.find?_cons_of_neg _ (by simp [hna])]
      exact ih j (Nat.lt_of_succ_lt_succ hi) hp htl

/-- Helper: when any condition up to and including the upload fails,
the handler returns the 500 result and leaves S3 untouched. -/
theorem handler_of_not_persisted (env : Env) (s3 : S3State) (srcBucket key : String)
    (h : persisted env s3 srcBucket key = false) :
    lambda_handler env s3 srcBucket key = (err500, s3) := by
  unfold persisted at h
  cases ha : env.s3AccessOk
  · simp [lambda_handler, ha]
  · cases he : env.eventOk
    · simp [lambda_handler, ha, he]
    · cases hb : srcBucket == SOURCE_BUCKET
      · simp [lambda_handler, ha, he, bne, hb]
      · cases hl : lookupObj s3.src key with
        | none => simp [lambda_handler, ha, he, bne, hb, hl]
        | some rows =>
          cases hd : env.downloadOk
          · simp [lambda_handler, ha, he, bne, hb, hl, hd]
          · cases hz : (processCsv rows).length == 0
            · cases hu : env.uploadOk
              · simp [lambda_handler, ha, he, bne, hb, hl, hd, hz, hu]
              · rw [ha, he, hb, hl, hd, hu] at h
                simp [hz] at h
            · simp [lambda_handler, ha, he, bne, hb, hl, hd, hz]

/-- Helper: when every condition up to and including the upload holds,
the destination bucket of the final state carries the processed batch
under the artifact key. -/
theorem handler_of_persisted (env : Env) (s3 : S3State) (srcBucket key : String)
    (h : persisted env s3 srcBucket key = true) :
    (lambda_handler env s3 srcBucket key).2.dest
      = putObj s3.dest key (processCsv ((lookupObj s3.src key).getD [])) := by
  unfold persisted at h
  simp only [Bool.and_eq_true] at h
  obtain ⟨⟨⟨⟨⟨⟨ha, he⟩, hb⟩, hl⟩, hd⟩, hz⟩, hu⟩ := h
  cases hl' : lookupObj s3.src key with
  | none => rw [hl'] at hl; simp at hl
  | some rows =>
    rw [hl'] at hz
    simp only [Option.getD_some] at hz
    have hz' : ((processCsv rows).length == 0) = false := by
      cases hzz : (processCsv rows).length == 0
      · rfl
      · rw [hzz] at hz; simp at hz
    simp only [lambda_handler, ha, he, hb, hl', hd, hu, hz', Bool.not_true,
      Bool.not_false, bne, if_false, if_true, Option.getD_some]
    cases har : (archive_file env { s3 with dest := putObj s3.dest key (processCsv rows) } key).1 <;>
      simp [har, archive_file_dest]

/-- C1: the claim that a second invocation of the sink for the same
artifact is a duplicate-free no-op success fails: after a successful
run the source object is gone, so the retry returns statusCode 500
instead of a success, even though it indeed stores no duplicate. -/
theorem c1_counterexample :
    (lambda_handler envOk exS3 SOURCE_BUCKET "stmt.csv").1.statusCode = 200
    ∧ lookupObj (lambda_handler envOk exS3 SOURCE_BUCKET "stmt.csv").2.src "stmt.csv" = none
    ∧ (lambda_handler envOk (lambda_handler envOk exS3 SOURCE_BUCKET "stmt.csv").2
        SOURCE_BUCKET "stmt.csv").1.statusCode = 500 := by
  decide

/-- C1 (amended): invoking the handler again for an artifact that is no
longer at its source key (e.g. already archived by a previous
invocation) returns the 500 error result and leaves both buckets
unchanged — so the retry inserts no duplicate rows, but it is an error,
not a no-op success. -/
theorem c1_retry_is_error_not_noop (env : Env) (s3 : S3State) (key : String)
    (h : lookupObj s3.src key = none) :
    lambda_handler env s3 SOURCE_BUCKET key = (err500, s3) := by
  cases ha : env.s3AccessOk
  · simp [lambda_handler, ha]
  · cases he : env.eventOk
    · simp [lambda_handler, ha, he]
    · simp [lambda_handler, ha, he, h]

/-- C1 witness: the amended theorem applied to the state after one
successful run. -/
theorem c1_retry_is_error_not_noop_witness :
    lambda_handler envOk (lambda_handler envOk exS3 SOURCE_BUCKET "stmt.csv").2
        SOURCE_BUCKET "stmt.csv"
      = (err500, (lambda_handler envOk exS3 SOURCE_BUCKET "stmt.csv").2) :=
  c1_retry_is_error_not_noop envOk (lambda_handler envOk exS3 SOURCE_BUCKET "stmt.csv").2
    "stmt.csv" (by decide)

/-- C2: archival of the source artifact happens only after persistence
is confirmed, and any failure before confirmed persistence leaves the
artifact at its original location: (a) if the handler changed the
source bucket at all, the upload succeeded and the destination bucket
holds the processed batch under the artifact key; (b) if any step up to
and including the upload failed, the whole S3 state is unchanged. -/
theorem c2_archive_only_after_persist (env : Env) (s3 : S3State) (srcBucket key : String) :
    ((lambda_handler env s3 srcBucket key).2.src ≠ s3.src →
        env.uploadOk = true
        ∧ lookupObj (lambda_handler env s3 srcBucket key).2.dest key
            = some (processCsv ((lookupObj s3.src key).getD [])))
    ∧ (persisted env s3 srcBucket key = false →
        lambda_handler env s3 srcBucket key = (err500, s3)) := by
  constructor
  · intro hsrc
    cases hp : persisted env s3 srcBucket key
    · exact absurd (congrArg (fun st => st.2.src) (handler_of_not_persisted env s3 srcBucket key hp)) hsrc
    · refine ⟨?_, ?_⟩
      · unfold persisted at hp
        simp only [Bool.and_eq_true] at hp
        exact hp.2
      · rw [handler_of_persisted env s3 srcBucket key hp, lookup_put]
  · exact handler_of_not_persisted env s3 srcBucket key

/-- C2 witness: with a failing upload, the handler leaves the state
untouched and reports the error. -/
theorem c2_archive_only_after_persist_witness :
    lambda_handler envNoUpload exS3 SOURCE_BUCKET "stmt.csv" = (err500, exS3) :=
  (c2_archive_only_after_persist envNoUpload exS3 SOURCE_BUCKET "stmt.csv").2 (by decide)

/-- C9: a file whose rows yield zero valid transactions makes the whole
run fail with the 500 error result (the `ValueError` raised at
lambda_function.py lines 193-194), leaving S3 untouched — never a
silently empty success. -/
theorem c9_empty_batch_errors (env : Env) (s3 : S3State) (key : String) (rows : List RawRow)
    (hrows : lookupObj s3.src key = some rows) (hempty : processCsv rows = []) :
    lambda_handler env s3 SOURCE_BUCKET key = (err500, s3) := by
  have hp : persisted env s3 SOURCE_BUCKET key = false := by
    unfold persisted
    rw [hrows]
    simp [hempty]
  exact handler_of_not_persisted env s3 SOURCE_BUCKET key hp

/-- C9 witness: a one-row file whose row lacks a date processes to zero
rows and the run errors. -/
theorem c9_empty_batch_errors_witness :
    lambda_handler envOk ⟨[("empty.csv", [[("Description", "no date")]])], []⟩
        SOURCE_BUCKET "empty.csv"
      = (err500, ⟨[("empty.csv", [[("Description", "no date")]])], []⟩) :=
  c9_empty_batch_errors envOk ⟨[("empty.csv", [[("Description", "no date")]])], []⟩
    "empty.csv" [[("Description", "no date")]] (by decide) (by decide)

/-- Example analysis dataframe: a single positive transaction of 5000
in one observed month. -/
def c3df : List ATxn := [⟨⟨2024, 1, 5⟩, 5000⟩]

/-- C3: the claim that the reported total income equals the
user-declared monthly income times the number of distinct observed
months fails: with declared income 3000 and one observed month holding
a single positive transaction of 5000, the code reports 5000, not
3000. -/
theorem c3_counterexample :
    total_income c3df ≠ (3000 : ℚ) * (months_count c3df : ℚ) := by
  have hm : months_count c3df = 1 := by decide
  rw [hm]
  norm_num [total_income, c3df, List.filter]

/-- C3 (amended): the reported total income is the sum of the
positive-amount transactions; the user-declared monthly income never
enters the computation. -/
theorem c3_total_income_sums_positives (df : List ATxn) :
    total_income df = (df.map (fun t => if 0 < t.amount then t.amount else 0)).sum := by
  induction df with
  | nil => rfl
  | cons a t ih =>
    by_cases h : 0 < a.amount <;>
      simp [total_income, List.filter_cons, h] <;>
      simp [total_income] at ih <;>
      simp [ih]

/-- Helper for C4: the nested conditionals the code's min/max chain
computes on a finite quotient equal the clamp the spec describes. -/
theorem min_max_if_eq_clamp (q : ℚ) :
    (if 0 < (if q < 1 then q else 1) then (if q < 1 then q else 1) else (0 : ℚ))
      = clampSpec q := by
  unfold clampSpec
  split_ifs <;> linarith

/-- C4: the claim that a zero savings goal always yields progress
fraction 1.0 fails: a zero goal raises no error, but with negative net
savings the division yields negative infinity, which the clamp maps to
0.0, not 1.0. -/
theorem c4_counterexample :
    progressCalc (-500) 0 = FloatVal.fin 0
    ∧ progressCalc (-500) 0 ≠ FloatVal.fin 1 := by
  decide

/-- C4 (amended): for every net savings and nonzero goal the progress
fraction is `clamp(netSavings / savingsGoal, 0.0, 1.0)`; a zero goal
raises no division error — the infinite (or nan) quotient is clamped
to 1.0 when net savings is non-negative, but to 0.0 when net savings
is negative. -/
theorem c4_progress_clamped (net goal : ℚ) :
    (goal ≠ 0 → progressCalc net goal = FloatVal.fin (clampSpec (net / goal)))
    ∧ (goal = 0 → 0 ≤ net → progressCalc net goal = FloatVal.fin 1)
    ∧ (goal = 0 → net < 0 → progressCalc net goal = FloatVal.fin 0) := by
  refine ⟨?_, ?_, ?_⟩
  · intro h
    simp only [progressCalc, pyDiv, if_neg h, pyMin, pyMax]
    rw [min_max_if_eq_clamp]
  · intro h hnet
    rcases lt_or_eq_of_le hnet with hpos | hzero
    · simp [progressCalc, pyDiv, h, hpos, pyMin, pyMax, zero_lt_one]
    · simp [progressCalc, pyDiv, h, ← hzero, pyMin, pyMax, zero_lt_one]
  · intro h hneg
    simp [progressCalc, pyDiv, h, hneg, not_lt.mpr (le_of_lt hneg), pyMin, pyMax]

/-- C4 witness: the amended theorem at net 500 with goal 250 (finite
quotient 2 clamped to 1) and at net 500 with goal 0 (infinite quotient
clamped to 1). -/
theorem c4_progress_clamped_witness :
    progressCalc 500 250 = FloatVal.fin (clampSpec (500 / 250))
    ∧ progressCalc 500 0 = FloatVal.fin 1 :=
  ⟨(c4_progress_clamped 500 250).1 (by norm_num),
   (c4_progress_clamped 500 0).2.1 rfl (by norm_num)⟩

/-- C5: amount normalization maps a non-empty debit column with empty
credit to the negated parsed value, a non-empty credit column with
empty debit to the positive parsed value, and rejects the row when both
are empty (or absent). -/
theorem c5_debit_credit_sign :
    (∀ d v, pyStrip d ≠ "" → pyFloat (stripCommas d) = some v →
        normalizeAmount (some d) (some "") = some (-v))
    ∧ (∀ c v, pyStrip c ≠ "" → pyFloat (stripCommas c) = some v →
        normalizeAmount (some "") (some c) = some v)
    ∧ normalizeAmount (some "") (some "") = none
    ∧ normalizeAmount none none = none := by
  refine ⟨?_, ?_, rfl, rfl⟩
  · intro d v hd hv
    have hne : d ≠ "" := fun h => hd (by rw [h]; rfl)
    simp [normalizeAmount, truthy, hne, hd, hv]
  · intro c v hc hv
    have hne : c ≠ "" := fun h => hc (by rw [h]; rfl)
    simp [normalizeAmount, truthy, hne, hc, hv]

/-- C5 witness: debit "50.00" with empty credit gives -50; credit
"50.00" with empty debit gives +50. -/
theorem c5_debit_credit_sign_witness :
    normalizeAmount (some "50.00") (some "") = some (-50)
    ∧ normalizeAmount (some "") (some "50.00") = some 50 := by
  have hv : pyFloat (stripCommas "50.00") = some 50 := by
    have h : pyFloatParts (stripCommas "50.00") = some (false, 5000, 2) := by decide
    rw [pyFloat, h]
    simp only [Option.map, Option.some.injEq]
    norm_num
  exact ⟨c5_debit_credit_sign.1 "50.00" 50 (by decide) hv,
    c5_debit_credit_sign.2.1 "50.00" 50 (by decide) hv⟩

/-- C6: classification lower-cases the description and returns the
first category in table order with any matching keyword; when no
keyword of any category matches, the sentinel category "Other" is
returned. -/
theorem c6_first_match_order :
    (∀ (d : String) (i : Nat) (hi : i < categories.length),
        kwMatch (strToLower d) (categories.get ⟨i, hi⟩) = true →
        (categories.take i).all (fun p => !kwMatch (strToLower d) p) = true →
        categorize_transaction d = (categories.get ⟨i, hi⟩).1)
    ∧ (∀ d : String, categories.all (fun p => !kwMatch (strToLower d) p) = true →
        categorize_transaction d = "Other") := by
  constructor
  · intro d i hi hp hall
    unfold categorize_transaction
    rw [find?_first (kwMatch (strToLower d)) categories i hi hp hall]
  · intro d hall
    unfold categorize_transaction
    have hnone : categories.find? (kwMatch (strToLower d)) = none := by
      rw [List.find?_eq_none]
      intro x hx
      have hx' := (List.all_eq_true.mp hall) x hx
      simpa using hx'
    rw [hnone]

/-- C6 witness: "Shell Gas Station" contains the keyword "gas", which
appears in both the Transportation and the Utilities keyword lists;
Transportation is earlier in table order and wins (index 1, with index
0 Food and Dining not matching). -/
theorem c6_first_match_order_witness :
    categorize_transaction "Shell Gas Station" = "Transportation" :=
  c6_first_match_order.1 "Shell Gas Station" 1 (by decide) (by decide) (by decide)

/-- C7: the claim that date normalization tries ISO first and then
MM/DD/YYYY fails: the code tries only ISO, so "01/15/2024" — which the
claimed two-format parser accepts — is rejected. -/
theorem c7_counterexample :
    validate_date "01/15/2024" = none
    ∧ validate_date_spec "01/15/2024" = some ⟨2024, 1, 15⟩ := by
  decide

/-- C7 (amended): date normalization accepts only ISO `YYYY-MM-DD`
(MM/DD/YYYY dates are rejected), and a row whose date does not parse is
dropped from the staged batch, never defaulted: the batch is exactly
the rows whose date field parses, each carrying its parsed date. -/
theorem c7_iso_only_and_drop :
    validate_date "03/09/2024" = none
    ∧ (∀ (rows : List RawRow) (batch : List Txn), buildBatch rows = Except.ok batch →
        batch = rows.filterMap
          (fun r => (rowDateField r).bind (fun ds => (validate_date ds).map (mkTxn r)))) := by
  refine ⟨by decide, ?_⟩
  intro rows
  induction rows with
  | nil =>
    intro batch h
    simp [buildBatch] at h
    simp [h.symm]
  | cons r t ih =>
    intro batch h
    unfold buildBatch at h
    cases hd : rowDateField r with
    | none => rw [hd] at h; simp at h
    | some ds =>
      rw [hd] at h
      simp only [] at h
      cases hb : buildBatch t with
      | error e => rw [hb] at h; simp at h
      | ok tb =>
        rw [hb] at h
        cases hv : validate_date ds with
        | some d =>
          rw [hv] at h
          simp only [Except.ok.injEq] at h
          rw [← h]
          simp only [List.filterMap_cons, hd, hv, Option.some_bind, Option.map_some']
          simp [ih tb hb]
        | none =>
          rw [hv] at h
          simp only [Except.ok.injEq] at h
          rw [← h]
          simp only [List.filterMap_cons, hd, hv, Option.some_bind, Option.map_none']
          exact ih tb hb

/-- C7 witness: of two rows, the ISO-dated one is staged with its
parsed date and the MM/DD/YYYY-dated one is dropped. -/
theorem c7_iso_only_and_drop_witness :
    [mkTxn [("date", "2024-03-09"), ("amount", "bad")] ⟨2024, 3, 9⟩]
      = ([[("date", "2024-03-09"), ("amount", "bad")],
          [("date", "03/09/2024"), ("amount", "bad")]] : List RawRow).filterMap
          (fun r => (rowDateField r).bind (fun ds => (validate_date ds).map (mkTxn r))) :=
  c7_iso_only_and_drop.2
    [[("date", "2024-03-09"), ("amount", "bad")], [("date", "03/09/2024"), ("amount", "bad")]]
    [mkTxn [("date", "2024-03-09"), ("amount", "bad")] ⟨2024, 3, 9⟩] (by rfl)

/-- Example insert-stage row whose amount "abc" fails numeric
parsing. -/
def c8row : RawRow :=
  [("date", "2024-02-10"), ("description", "Mystery charge"),
   ("amount", "abc"), ("category", "Misc")]

/-- C8: the claim that a row whose amount fails numeric parsing is
rejected fails: "abc" does not parse, yet the insert stage stores the
row with the default amount 0, so a stored amount of zero does not mean
the source reported $0.00. -/
theorem c8_counterexample :
    pyFloat "abc" = none
    ∧ buildBatch [c8row] = Except.ok [⟨⟨2024, 2, 10⟩, "Mystery charge", 0, "Misc"⟩] :=
  ⟨by decide, by rfl⟩

/-- C8 (amended): `validate_amount` defaults every numeric parse
failure (and a missing amount) to 0 instead of rejecting the row, while
the CSV-cleaning stage does skip rows whose debit/credit columns yield
no parsed amount. -/
theorem c8_amount_defaults_zero :
    (∀ s : String, pyFloat s = none → validate_amount (some s) = 0)
    ∧ validate_amount none = 0
    ∧ (∀ r : RawRow,
        normalizeAmount (pyOr (rowGet r "Debit (-)") (rowGet r "Debit"))
          (pyOr (rowGet r "Credit (+)") (rowGet r "Credit")) = none →
        processRow r = none) := by
  refine ⟨?_, rfl, ?_⟩
  · intro s h
    simp [validate_amount, h]
  · intro r h
    simp only [processRow, h]
    cases truthy (pyOr (rowGet r "Date") (rowGet r "date")) <;> simp

/-- C8 witness: the amended theorem at the unparseable amount "abc". -/
theorem c8_amount_defaults_zero_witness :
    validate_amount (some "abc") = 0 :=
  c8_amount_defaults_zero.1 "abc" (by decide)

/-- Helper: the basename of a key contains no slash. -/
theorem baseName_no_slash (s : String) : '/' ∉ (baseName s).data := by
  intro h
  rw [baseName] at h
  rw [List.mem_reverse] at h
  have := List.mem_takeWhile_imp h
  simp at this

/-- C10: `archive_file` writes to `archive/<basename>` while the
handler reports `archive/<full key>`: (a) for every key containing a
slash the two differ; (b) any two keys sharing a basename archive to
the same destination key; (c) a concrete successful run stores the
archive copy at `archive/stmt.csv` but reports
`archive/data/stmt.csv`. -/
theorem c10_archive_basename :
    (∀ key : String, '/' ∈ key.data →
        archiveKeyOf key ≠ reportedArchivePath key)
    ∧ (∀ k1 k2 : String, k1 ≠ k2 → baseName k1 = baseName k2 →
        archiveKeyOf k1 = archiveKeyOf k2)
    ∧ ((lambda_handler envOk ⟨[("data/stmt.csv", [exRow])], []⟩
          SOURCE_BUCKET "data/stmt.csv").1.archivedPath = some "archive/data/stmt.csv"
        ∧ lookupObj (lambda_handler envOk ⟨[("data/stmt.csv", [exRow])], []⟩
            SOURCE_BUCKET "data/stmt.csv").2.src "archive/stmt.csv" = some [exRow]
        ∧ lookupObj (lambda_handler envOk ⟨[("data/stmt.csv", [exRow])], []⟩
            SOURCE_BUCKET "data/stmt.csv").2.src "archive/data/stmt.csv" = none) := by
  refine ⟨?_, ?_, by decide⟩
  · intro key hk heq
    have hdata := congrArg String.data heq
    rw [archiveKeyOf, reportedArchivePath] at hdata
    rw [String.data_append, String.data_append] at hdata
    have hbase : (baseName key).data = key.data := List.append_cancel_left hdata
    exact baseName_no_slash key (hbase ▸ hk)
  · intro k1 k2 _ hb
    rw [archiveKeyOf, archiveKeyOf, hb]

/-- C10 witness: the reported and actual archive keys differ for a
nested key, and two distinct keys with equal basenames collide. -/
theorem c10_archive_basename_witness :
    archiveKeyOf "data/stmt.csv" ≠ reportedArchivePath "data/stmt.csv"
    ∧ archiveKeyOf "a/x.csv" = archiveKeyOf "b/x.csv" :=
  ⟨c10_archive_basename.1 "data/stmt.csv" (by decide),
   c10_archive_basename.2.1 "a/x.csv" "b/x.csv" (by decide) (by decide)⟩
